import Mathlib

/-!
Verification development for the picaso brown-dwarf climate tutorial
(docs/notebooks/climate/12a_BrownDwarf.ipynb) and the specification of the
iterative radiative-convective equilibrium (RCE) solver it invokes.

The repository slice contains only the tutorial notebook; the solver itself
(EquilibriumSolver, RadiativeFluxSolver, ConvectiveAdjuster, ProfileStore)
lives in the unseen library.  Following the specification, those components
are modelled here from the spec's words; the tutorial's concrete inputs
(pressure grid, temperature guess, convective-zone guess, `nofczns`, `rfacv`)
are translated from the notebook source.

Numeric convention: the machine floats of the program are embedded as exact
rationals (ℚ).  Pressure is carried in log10-pressure coordinates — the spec
itself prescribes log-pressure spacing internally, `np.logspace` produces an
affine grid in those coordinates, and since x ↦ 10^x is strictly monotone,
strict monotonicity of the pressures is equivalent to strict monotonicity of
the stored log-pressures.
-/

/-- Boolean test that a list of rationals is strictly increasing with index
(adjacent-pairs check). -/
def strictIncB : List ℚ → Bool
  | [] => true
  | [_] => true
  | a :: b :: rest => decide (a < b) && strictIncB (b :: rest)

/-- The exponent grid of `np.logspace(a, b, n)`: `n` points affinely spaced
from `a` to `b`; entry `i` is `a + i*(b-a)/(n-1)`.  `np.logspace` returns
`10^x` over exactly this grid, so in log10-pressure coordinates the tutorial's
pressure grid IS this list. -/
def logspaceExp (a b : ℚ) (n : ℕ) : List ℚ :=
  (List.range n).map (fun i : ℕ => a + (i : ℚ) * (b - a) / ((n : ℚ) - 1))

/-- Three-list zipWith, truncating at the shortest list. -/
def zipWith3 {α β γ δ : Type} (f : α → β → γ → δ) : List α → List β → List γ → List δ
  | a :: as, b :: bs, c :: cs => f a b c :: zipWith3 f as bs cs
  | _, _, _ => []

/-- Sign of a rational, as an integer in {-1, 0, 1}. -/
def sgn (q : ℚ) : Int := if 0 < q then 1 else if q < 0 then -1 else 0

/-- Maximum absolute componentwise difference of two lists (0 for empty). -/
def maxAbsDiff (xs ys : List ℚ) : ℚ :=
  (List.zipWith (fun a b => |a - b|) xs ys).foldr max 0

/-- Modelled from the spec: Profile — ordered sequence of levels indexed
0..N-1 from top of atmosphere to bottom; each level holds a pressure
(strictly increasing with index, carried here in log10-pressure coordinates)
and a temperature in Kelvin.  The per-level opacity/abundance caches are
recomputed each iteration and carried in the loop state instead. -/
structure Profile where
  pressure : List ℚ
  temperature : List ℚ
deriving DecidableEq

/-- Modelled from the spec: ConvectiveZoneMap — ordered list of
(start_index, end_index) integer pairs delimiting contiguous convectively
unstable index ranges. -/
abbrev ConvectiveZoneMap := List (ℕ × ℕ)

/-- Modelled from the spec: SolverConfig — immutable per-run configuration
(§3, §6 run-configuration surface).  The convergence tolerance, the number of
consecutive in-tolerance iterations required, the divergence sanity ceiling
and the history-tracking switch are the spec's configured knobs whose values
the tutorial does not pin down. -/
structure SolverConfig where
  effective_temperature_K : ℚ
  gravity_m_s2 : ℚ
  nlevel : ℕ
  rfacv : ℚ
  nofczns : ℕ
  max_iterations : ℕ
  tolerance : ℚ
  consecutive_required : ℕ
  temp_ceiling : ℚ
  track_history : Bool
deriving DecidableEq

/-- Modelled from the spec: the external collaborators and physics kernels
absent from the repository slice and left unspecified by the spec (§2
external components, §9 open question): `OpacityProvider.lookup`,
`ChemistryEngine.equilibrium`, the radiative kernel of RadiativeFluxSolver,
the per-level irradiation input, the convective-instability test, the
adiabatic target temperature, and the flux-imbalance diagnostic.  All are
pure functions, as the spec requires. -/
structure Physics where
  opacity : ℚ → ℚ → List ℚ → List ℚ
  chemistry : ℚ → ℚ → List ℚ
  radiative : Profile → ConvectiveZoneMap → List (List ℚ) → ℚ → List ℚ
  irradiation : Profile → List ℚ
  unstable : Profile → List ℚ → List Bool
  adiabat : Profile → ℕ → ℚ
  fluxImbalance : Profile → List ℚ → ℚ

/-- Modelled from the spec: the boundary conditions handed to
`RadiativeFluxSolver.compute_heating` — the internal-flux boundary condition
derived from the effective temperature, the per-level irradiation input, and
the irradiation factor `rfacv`. -/
structure BoundaryConditions where
  internal_flux : ℚ
  irradiation : List ℚ
  rfacv : ℚ

/-- Modelled from the spec: IterationRecord — snapshot of profile, zone map
and scalar diagnostics at a given iteration index (§3). -/
structure IterationRecord where
  iteration_index : ℕ
  profile : Profile
  zones : ConvectiveZoneMap
  max_delta_T : ℚ
  flux_imbalance : ℚ
deriving DecidableEq

/-- Modelled from the spec: the EquilibriumSolver state-machine states
INITIALIZED, ITERATING, CONVERGED, DIVERGED, MAX_ITER_EXCEEDED (§4.4). -/
inductive SState
  | initial
  | iterating
  | converged
  | diverged
  | maxIterExceeded
deriving DecidableEq

/-- Modelled from the spec: terminal solver outcomes, reported as structured
results rather than exceptions (§7); `configError` is the fail-fast
ConfigurationError detected before iteration begins. -/
inductive SolveOutcome
  | configError
  | converged
  | diverged
  | maxIterExceeded
deriving DecidableEq

/-- The terminal state-machine state corresponding to a solve outcome
(`configError` never enters the machine and is mapped to the fresh state). -/
def terminalOf : SolveOutcome → SState
  | SolveOutcome.configError => SState.initial
  | SolveOutcome.converged => SState.converged
  | SolveOutcome.diverged => SState.diverged
  | SolveOutcome.maxIterExceeded => SState.maxIterExceeded

/-- The transition relation of the spec's state machine (§4.4):
INITIALIZED -> ITERATING -> {ITERATING, CONVERGED, DIVERGED,
MAX_ITER_EXCEEDED}; nothing else. -/
def allowedT : SState → SState → Bool
  | SState.initial, SState.iterating => true
  | SState.iterating, SState.iterating => true
  | SState.iterating, SState.converged => true
  | SState.iterating, SState.diverged => true
  | SState.iterating, SState.maxIterExceeded => true
  | _, _ => false

/-- Whether a state is one of the three terminal states. -/
def isTerminal : SState → Bool
  | SState.converged => true
  | SState.diverged => true
  | SState.maxIterExceeded => true
  | _ => false

/-- Modelled from the spec: ConvergenceResult — final profile, final zone
map, convergence flag, iterations used, optional iteration history (§3),
plus the terminal outcome and the sequence of state-machine states the run
passed through. -/
structure ConvergenceResult where
  final_profile : Profile
  final_zones : ConvectiveZoneMap
  converged : Bool
  iterations : ℕ
  history : List IterationRecord
  outcome : SolveOutcome
  trace : List SState
deriving DecidableEq

/-- Modelled from the spec: the mutable working state owned by
EquilibriumSolver for the duration of one solve (ProfileStore plus the
damping/oscillation bookkeeping of §4.1 step 3). -/
structure LoopState where
  profile : Profile
  zones : ConvectiveZoneMap
  damping : List ℚ
  prevHeating : List ℚ
  streak : ℕ
  iter : ℕ
  history : List IterationRecord
  trace : List SState

/-- Merge the first two zones of the map into one (union of index ranges). -/
def mergeStep : ConvectiveZoneMap → ConvectiveZoneMap
  | a :: b :: rest => (min a.1 b.1, max a.2 b.2) :: rest
  | zs => zs

/-- Fuelled loop merging adjacent zones while more than `bound` remain. -/
def mergeToBoundFuel (bound : ℕ) : ℕ → ConvectiveZoneMap → ConvectiveZoneMap
  | 0, zs => zs
  | fuel + 1, zs =>
    if zs.length ≤ bound then zs else mergeToBoundFuel bound fuel (mergeStep zs)

/-- Modelled from the spec: if a proposed adjustment would create more zones
than allowed, adjacent zones are merged (their index ranges unioned) until
the count is within the bound (§4.3). -/
def mergeToBound (bound : ℕ) (zs : ConvectiveZoneMap) : ConvectiveZoneMap :=
  mergeToBoundFuel bound zs.length zs

/-- Zone-map bounding: with `nofczns = 0` the atmosphere is treated as
purely radiative (no zones are tracked); otherwise adjacent zones are merged
down to the bound. -/
def boundZones (bound : ℕ) (zs : ConvectiveZoneMap) : ConvectiveZoneMap :=
  if bound = 0 then [] else mergeToBound bound zs

/-- Contiguous runs of `true` flags as index ranges; accumulator carries the
current index and the start of an open run. -/
def runsAux : ℕ → Option ℕ → List Bool → ConvectiveZoneMap
  | _, Option.none, [] => []
  | i, Option.some s, [] => [(s, i - 1)]
  | i, Option.none, Bool.true :: rest => runsAux (i + 1) (Option.some i) rest
  | i, Option.none, Bool.false :: rest => runsAux (i + 1) Option.none rest
  | i, Option.some s, Bool.true :: rest => runsAux (i + 1) (Option.some s) rest
  | i, Option.some s, Bool.false :: rest => (s, i - 1) :: runsAux (i + 1) Option.none rest

/-- The maximal contiguous unstable runs of a per-level instability flag
list, as candidate convective zones. -/
def unstableRuns (flags : List Bool) : ConvectiveZoneMap :=
  runsAux 0 Option.none flags

/-- Whether level `i` lies in some zone of the map. -/
def inAnyZone (zones : ConvectiveZoneMap) (i : ℕ) : Bool :=
  zones.any (fun z => decide (z.1 ≤ i) && decide (i ≤ z.2))

/-- Modelled from the spec: the internal-flux boundary condition derived
from the effective temperature (the `T_eff^4` relation of §4.1 step 2; the
Stefan–Boltzmann constant is absorbed into the unit). -/
def internalFlux (cfg : SolverConfig) : ℚ :=
  cfg.effective_temperature_K ^ 4

/-- Modelled from the spec: `RadiativeFluxSolver.compute_heating(profile,
zones, opacities, boundary_conditions)` — a pure function returning the
per-level heating rate: the internal radiative term plus the
`rfacv`-weighted irradiation contribution (§4.2, §4.1 step 2). -/
def compute_heating (phys : Physics) (prof : Profile) (zones : ConvectiveZoneMap)
    (opac : List (List ℚ)) (bc : BoundaryConditions) : List ℚ :=
  List.zipWith (fun r irr => r + bc.rfacv * irr)
    (phys.radiative prof zones opac bc.internal_flux) bc.irradiation

/-- Modelled from the spec: `ConvectiveAdjuster.adjust(profile, zones)` —
detects convectively unstable levels, pulls unstable runs onto the adiabatic
profile, and updates the zone map, merging zones so the count never exceeds
`nofczns`; if no unstable levels exist, returns the input unchanged with the
purely-radiative flag set (§4.3).  Pressures are never touched. -/
def ConvectiveAdjuster.adjust (cfg : SolverConfig) (phys : Physics) (prof : Profile)
    (zones : ConvectiveZoneMap) (heat : List ℚ) : Profile × ConvectiveZoneMap × Bool :=
  let flags := phys.unstable prof heat
  if flags.all (fun b => !b) then
    (prof, zones, true)
  else
    let zones2 := boundZones cfg.nofczns (unstableRuns flags)
    let temps2 := List.zipWith
      (fun i t => if inAnyZone zones2 i then phys.adiabat prof i else t)
      (List.range prof.temperature.length) prof.temperature
    ({ pressure := prof.pressure, temperature := temps2 }, zones2, false)

/-- Modelled from the spec: the fail-fast configuration validation performed
before iteration begins (§4.1 preconditions, §7 ConfigurationError, §8
divergence scenario): profile lengths equal `nlevel`, strictly positive
initial temperatures, strictly increasing pressure grid, `rfacv` in [0,1],
zone count within `nofczns`, zone ranges within [0, nlevel), and
`max_iterations > 0`. -/
def validConfig (cfg : SolverConfig) (prof : Profile) (zones : ConvectiveZoneMap) : Bool :=
  decide (prof.pressure.length = cfg.nlevel) &&
  decide (prof.temperature.length = cfg.nlevel) &&
  prof.temperature.all (fun t => decide (0 < t)) &&
  strictIncB prof.pressure &&
  decide (0 ≤ cfg.rfacv) &&
  decide (cfg.rfacv ≤ 1) &&
  decide (zones.length ≤ cfg.nofczns) &&
  zones.all (fun z => decide (z.1 ≤ z.2) && decide (z.2 < cfg.nlevel)) &&
  decide (0 < cfg.max_iterations)

/-- Modelled from the spec: one iteration of the fixed-point loop (§4.1
steps 1-5): refresh chemistry and opacity per level, compute heating rates,
take a damped relaxation step (halving the per-level step where the heating
rate alternates sign across iterations), run the convective adjustment,
compute the convergence metrics and append an IterationRecord when history
tracking is enabled.  One call is one ITERATING self-transition. -/
def iterStep (cfg : SolverConfig) (phys : Physics) (st : LoopState) : LoopState :=
  let prof := st.profile
  let comp := List.zipWith phys.chemistry prof.pressure prof.temperature
  let opac := zipWith3 phys.opacity prof.pressure prof.temperature comp
  let bc : BoundaryConditions :=
    { internal_flux := internalFlux cfg
      irradiation := phys.irradiation prof
      rfacv := cfg.rfacv }
  let heat := compute_heating phys prof st.zones opac bc
  let damping2 := zipWith3 (fun d hp h => if sgn hp * sgn h < 0 then d / 2 else d)
    st.damping st.prevHeating heat
  let relaxed : Profile :=
    { pressure := prof.pressure
      temperature := zipWith3 (fun t d h => t + d * h) prof.temperature damping2 heat }
  let adj := ConvectiveAdjuster.adjust cfg phys relaxed st.zones heat
  let maxDT := maxAbsDiff prof.temperature adj.1.temperature
  let imb := phys.fluxImbalance adj.1 heat
  let ok := decide (maxDT ≤ cfg.tolerance) && decide (|imb| ≤ cfg.tolerance)
  { profile := adj.1
    zones := adj.2.1
    damping := damping2
    prevHeating := heat
    streak := if ok then st.streak + 1 else 0
    iter := st.iter + 1
    history := st.history ++
      (if cfg.track_history then
        [{ iteration_index := st.iter + 1
           profile := adj.1
           zones := adj.2.1
           max_delta_T := maxDT
           flux_imbalance := imb }]
      else [])
    trace := st.trace ++ [SState.iterating] }

/-- Modelled from the spec: the divergence test — some level temperature has
left the physically valid bounds (non-positive or above the sanity
ceiling). -/
def divergedAt (cfg : SolverConfig) (st : LoopState) : Bool :=
  st.profile.temperature.any (fun t => decide (t ≤ 0) || decide (cfg.temp_ceiling < t))

/-- Modelled from the spec: successful convergence — both metrics have been
within tolerance for the configured number of consecutive iterations (at
least one). -/
def convergedNow (cfg : SolverConfig) (st : LoopState) : Bool :=
  decide (max 1 cfg.consecutive_required ≤ st.streak)

/-- Package the owned loop state into an immutable ConvergenceResult,
appending the terminal state to the trace. -/
def finishRun (outcome : SolveOutcome) (conv : Bool) (st : LoopState) : ConvergenceResult :=
  { final_profile := st.profile
    final_zones := st.zones
    converged := conv
    iterations := st.iter
    history := st.history
    outcome := outcome
    trace := st.trace ++ [terminalOf outcome] }

/-- Modelled from the spec: the solver's iteration loop, fuelled by the
remaining iteration budget; exhausting `max_iterations` without meeting
tolerance ends in MAX_ITER_EXCEEDED with the best-known profile flagged
not-converged (§4.1 step 6, §7 NonConvergenceError). -/
def solveLoop (cfg : SolverConfig) (phys : Physics) : ℕ → LoopState → ConvergenceResult
  | 0, st => finishRun SolveOutcome.maxIterExceeded false st
  | fuel + 1, st =>
    let st2 := iterStep cfg phys st
    if divergedAt cfg st2 then finishRun SolveOutcome.diverged false st2
    else if convergedNow cfg st2 then finishRun SolveOutcome.converged true st2
    else solveLoop cfg phys fuel st2

/-- The fresh owned state a new `solve` call starts from: the caller's
initial profile and zones, unit per-level damping, no previous heating, a
fresh INITIALIZED state that immediately transitions to ITERATING on loop
entry. -/
def initState (cfg : SolverConfig) (initial_profile : Profile)
    (initial_zones : ConvectiveZoneMap) : LoopState :=
  { profile := initial_profile
    zones := initial_zones
    damping := List.replicate cfg.nlevel 1
    prevHeating := List.replicate cfg.nlevel 0
    streak := 0
    iter := 0
    history := []
    trace := [SState.initial, SState.iterating] }

/-- Modelled from the spec: `EquilibriumSolver.solve(config, initial_profile,
initial_zones, opacity, chemistry)` (§4.1) — validates the configuration
(fail-fast ConfigurationError with no partial run), then drives the
fixed-point iteration from a fresh INITIALIZED state.  A pure function of
its inputs; each call owns its own profile and zone map. -/
def solve (cfg : SolverConfig) (phys : Physics) (initial_profile : Profile)
    (initial_zones : ConvectiveZoneMap) : ConvergenceResult :=
  if validConfig cfg initial_profile initial_zones then
    solveLoop cfg phys cfg.max_iterations (initState cfg initial_profile initial_zones)
  else
    { final_profile := initial_profile
      final_zones := initial_zones
      converged := false
      iterations := 0
      history := []
      outcome := SolveOutcome.configError
      trace := [] }

/-- A solver invocation: its configuration, physics stubs, initial profile
and initial zones (the tutorial runs two of these, `cl_run` and
`cl_bad_pres`). -/
structure RunInput where
  cfg : SolverConfig
  phys : Physics
  profile : Profile
  zones : ConvectiveZoneMap

/-- Run one solver invocation on its own inputs. -/
def solveOn (r : RunInput) : ConvergenceResult :=
  solve r.cfg r.phys r.profile r.zones

/-- Run a sequence of solver invocations one after the other (as the
tutorial runs `cl_run` then `cl_bad_pres`); each owns independent state. -/
def solveSeq (rs : List RunInput) : List ConvergenceResult :=
  rs.map solveOn

/-! Tutorial inputs, translated from docs/notebooks/climate/12a_BrownDwarf.ipynb. -/

/-- `nlevel = 91` — number of plane-parallel levels. -/
def tutorialNlevel : ℕ := 91

/-- The IEEE-754 double value of `np.log10(500)` computed by the notebook,
as an exact rational (shortest round-trip decimal of the double);
`np.log10(1e-4)` is exactly -4. -/
def log10_500 : ℚ := 2.6989700043360187

/-- `pressure = np.logspace(np.log10(1e-4), np.log10(500), 91)` in
log10-pressure coordinates. -/
def tutorialPressure : List ℚ := logspaceExp (-4) log10_500 tutorialNlevel

/-- `temp_guess = np.zeros(shape=(nlevel)) + 500` — isothermal 500 K guess. -/
def tutorialTempGuess : List ℚ := List.replicate tutorialNlevel 500

/-- `nstr_upper = 83` — top level of the guessed convective zone. -/
def tutorialNstrUpper : ℕ := 83

/-- `nstr_deep = nlevel - 2` — bottom level of the guessed convective zone. -/
def tutorialNstrDeep : ℕ := tutorialNlevel - 2

/-- `nstr = np.array([0, nstr_upper, nstr_deep, 0, 0, 0])`. -/
def tutorialNstr : List ℕ := [0, tutorialNstrUpper, tutorialNstrDeep, 0, 0, 0]

/-- The single convective-zone range encoded by `nstr`: [nstr_upper, nstr_deep]. -/
def tutorialZones : ConvectiveZoneMap := [(tutorialNstrUpper, tutorialNstrDeep)]

/-- `nofczns = 1`. -/
def tutorialNofczns : ℕ := 1

/-- `rfacv = 0.0` — brown dwarf, no irradiation contribution. -/
def tutorialRfacv : ℚ := 0

/-- The tutorial's initial profile: the logspace pressure grid with the
isothermal temperature guess. -/
def tutorialProfile : Profile :=
  { pressure := tutorialPressure, temperature := tutorialTempGuess }

/-- The tutorial's solver configuration (`teff = 1000`, `grav = 1000`,
`nlevel = 91`, `rfacv = 0`, `nofczns = 1` from the notebook; the iteration
budget, tolerances, divergence ceiling and history switch are the spec's
knobs, which the notebook leaves to the library — `save_all_profiles=True`
turns history tracking on). -/
def tutorialConfig : SolverConfig :=
  { effective_temperature_K := 1000
    gravity_m_s2 := 1000
    nlevel := tutorialNlevel
    rfacv := tutorialRfacv
    nofczns := tutorialNofczns
    max_iterations := 100
    tolerance := 1 / 1000
    consecutive_required := 2
    temp_ceiling := 30000
    track_history := true }

/-! Small concrete instances used by the witness theorems. -/

/-- A trivial two-level physics stub: zero opacities, zero heating, no
instability (the spec's isothermal, zero-opacity sanity stub of §8). -/
def tinyPhys : Physics :=
  { opacity := fun _ _ _ => []
    chemistry := fun _ _ => []
    radiative := fun _ _ _ _ => [0, 0]
    irradiation := fun _ => [0, 0]
    unstable := fun _ _ => [Bool.false, Bool.false]
    adiabat := fun _ _ => 0
    fluxImbalance := fun _ _ => 0 }

/-- A small valid two-level configuration. -/
def tinyCfg : SolverConfig :=
  { effective_temperature_K := 1000
    gravity_m_s2 := 1000
    nlevel := 2
    rfacv := 0
    nofczns := 1
    max_iterations := 3
    tolerance := 0
    consecutive_required := 1
    temp_ceiling := 10000
    track_history := true }

/-- A small valid two-level initial profile. -/
def tinyProf : Profile := { pressure := [0, 1], temperature := [500, 500] }

/-- A small valid one-zone initial map. -/
def tinyZones : ConvectiveZoneMap := [(0, 1)]

/-- A two-level profile whose temperature guess contains a non-positive
value (the spec's §8 divergence scenario input). -/
def badTempProf : Profile := { pressure := [0, 1], temperature := [-1, 500] }

/-! Helper lemmas. -/

theorem strictIncB_iff : ∀ l : List ℚ, strictIncB l = true ↔ List.Chain' (fun a b : ℚ => a < b) l
  | [] => by simp [strictIncB]
  | [a] => by simp [strictIncB]
  | a :: b :: rest => by
    rw [strictIncB, List.chain'_cons, Bool.and_eq_true, decide_eq_true_eq]
    exact and_congr Iff.rfl (strictIncB_iff (b :: rest))

theorem strictIncB_cons_of (a : ℚ) : ∀ l : List ℚ,
    (∀ b, l.head? = some b → a < b) → strictIncB l = true → strictIncB (a :: l) = true
  | [], _, _ => rfl
  | b :: t, h1, h2 => by
    rw [strictIncB, Bool.and_eq_true, decide_eq_true_eq]
    exact ⟨h1 b rfl, h2⟩

theorem strictIncB_map_range' (f : ℕ → ℚ) (hf : ∀ i, f i < f (i + 1)) :
    ∀ n s, strictIncB ((List.range' s n).map f) = true
  | 0, _ => rfl
  | n + 1, s => by
    rw [List.range'_succ, List.map_cons]
    apply strictIncB_cons_of
    · intro c hc
      cases n with
      | zero => simp at hc
      | succ m =>
        rw [List.range'_succ, List.map_cons] at hc
        simp only [List.head?_cons, Option.some_inj] at hc
        rw [← hc]
        exact hf s
    · exact strictIncB_map_range' f hf n (s + 1)

theorem logspaceExp_strictInc (a b : ℚ) (h : a < b) (n : ℕ) :
    strictIncB (logspaceExp a b n) = true := by
  match n with
  | 0 => rfl
  | 1 => rfl
  | m + 2 =>
    rw [logspaceExp, List.range_eq_range']
    apply strictIncB_map_range'
    intro i
    have hden : (0 : ℚ) < ((m + 2 : ℕ) : ℚ) - 1 := by push_cast; linarith
    have hba : (0 : ℚ) < b - a := by linarith
    have hkey : (i : ℚ) * (b - a) < ((i + 1 : ℕ) : ℚ) * (b - a) := by
      apply mul_lt_mul_of_pos_right _ hba
      push_cast
      linarith
    have hdiv := (div_lt_div_iff_of_pos_right hden).mpr hkey
    push_cast at hdiv ⊢
    linarith

theorem zipWith_zero_gate : ∀ rad l1 l2 : List ℚ, l1.length = l2.length →
    List.zipWith (fun r irr => r + 0 * irr) rad l1
      = List.zipWith (fun r irr => r + 0 * irr) rad l2
  | [], _, _, _ => by simp
  | _ :: _, [], [], _ => by simp
  | _ :: _, [], _ :: _, h => by simp at h
  | _ :: _, _ :: _, [], h => by simp at h
  | r :: rad, x :: l1, y :: l2, h => by
    simp only [List.zipWith]
    rw [zipWith_zero_gate rad l1 l2 (by simpa using h)]
    simp

theorem mergeToBoundFuel_le (bound : ℕ) (hb : 1 ≤ bound) :
    ∀ fuel zs, zs.length ≤ bound + fuel → (mergeToBoundFuel bound fuel zs).length ≤ bound := by
  intro fuel
  induction fuel with
  | zero => intro zs h; simpa [mergeToBoundFuel] using h
  | succ n ih =>
    intro zs h
    rw [mergeToBoundFuel]
    split
    · assumption
    · next hgt =>
      apply ih
      rcases zs with _ | ⟨z, _ | ⟨w, rest⟩⟩
      · simp only [List.length_nil] at hgt
        omega
      · simp only [List.length_cons, List.length_nil] at hgt
        omega
      · simp only [mergeStep, List.length_cons] at h ⊢
        omega

theorem mergeToBound_le (bound : ℕ) (hb : 1 ≤ bound) (zs : ConvectiveZoneMap) :
    (mergeToBound bound zs).length ≤ bound :=
  mergeToBoundFuel_le bound hb zs.length zs (by omega)

theorem boundZones_le (bound : ℕ) (zs : ConvectiveZoneMap) :
    (boundZones bound zs).length ≤ bound := by
  rw [boundZones]
  split
  · simp
  · exact mergeToBound_le bound (by omega) zs

theorem adjust_fst_pressure (cfg : SolverConfig) (phys : Physics) (prof : Profile)
    (zones : ConvectiveZoneMap) (heat : List ℚ) :
    (ConvectiveAdjuster.adjust cfg phys prof zones heat).1.pressure = prof.pressure := by
  rw [ConvectiveAdjuster.adjust]
  split
  · rfl
  · rfl

theorem adjust_zones_le (cfg : SolverConfig) (phys : Physics) (prof : Profile)
    (zones : ConvectiveZoneMap) (heat : List ℚ) (h : zones.length ≤ cfg.nofczns) :
    (ConvectiveAdjuster.adjust cfg phys prof zones heat).2.1.length ≤ cfg.nofczns := by
  rw [ConvectiveAdjuster.adjust]
  split
  · exact h
  · exact boundZones_le cfg.nofczns _

theorem iterStep_pressure (cfg : SolverConfig) (phys : Physics) (st : LoopState) :
    (iterStep cfg phys st).profile.pressure = st.profile.pressure := by
  show (ConvectiveAdjuster.adjust cfg phys _ st.zones _).1.pressure = st.profile.pressure
  rw [adjust_fst_pressure]

theorem iterStep_iter (cfg : SolverConfig) (phys : Physics) (st : LoopState) :
    (iterStep cfg phys st).iter = st.iter + 1 := rfl

theorem iterStep_trace (cfg : SolverConfig) (phys : Physics) (st : LoopState) :
    (iterStep cfg phys st).trace = st.trace ++ [SState.iterating] := rfl

theorem iterStep_zones_le (cfg : SolverConfig) (phys : Physics) (st : LoopState)
    (h : st.zones.length ≤ cfg.nofczns) :
    (iterStep cfg phys st).zones.length ≤ cfg.nofczns := by
  show (ConvectiveAdjuster.adjust cfg phys _ st.zones _).2.1.length ≤ cfg.nofczns
  exact adjust_zones_le cfg phys _ st.zones _ h

theorem iterStep_mem_history (cfg : SolverConfig) (phys : Physics) (st : LoopState)
    (r : IterationRecord) (hr : r ∈ (iterStep cfg phys st).history) :
    r ∈ st.history ∨
      (r.profile = (iterStep cfg phys st).profile ∧ r.zones = (iterStep cfg phys st).zones) := by
  have hr2 : r ∈ st.history ++
      (if cfg.track_history then
        [{ iteration_index := st.iter + 1
           profile := (iterStep cfg phys st).profile
           zones := (iterStep cfg phys st).zones
           max_delta_T := maxAbsDiff st.profile.temperature (iterStep cfg phys st).profile.temperature
           flux_imbalance := phys.fluxImbalance (iterStep cfg phys st).profile
             (iterStep cfg phys st).prevHeating }]
      else []) := hr
  rcases List.mem_append.1 hr2 with h | h
  · exact Or.inl h
  · right
    split at h
    · rw [List.mem_singleton] at h
      rw [h]
      exact ⟨rfl, rfl⟩
    · exact absurd h (List.not_mem_nil r)

theorem iterStep_history_length (cfg : SolverConfig) (phys : Physics) (st : LoopState) :
    (iterStep cfg phys st).history.length
      = st.history.length + (if cfg.track_history = true then 1 else 0) := by
  show (st.history ++ _).length = _
  rw [List.length_append]
  split
  · next hc => simp [hc]
  · next hc => simp [hc]

theorem finishRun_fields (o : SolveOutcome) (c : Bool) (st : LoopState) :
    (finishRun o c st).final_profile = st.profile ∧
    (finishRun o c st).final_zones = st.zones ∧
    (finishRun o c st).converged = c ∧
    (finishRun o c st).iterations = st.iter ∧
    (finishRun o c st).history = st.history ∧
    (finishRun o c st).outcome = o ∧
    (finishRun o c st).trace = st.trace ++ [terminalOf o] :=
  ⟨rfl, rfl, rfl, rfl, rfl, rfl, rfl⟩

theorem solveLoop_pressure (cfg : SolverConfig) (phys : Physics) (p : List ℚ) :
    ∀ fuel st, st.profile.pressure = p → (∀ r ∈ st.history, r.profile.pressure = p) →
      (solveLoop cfg phys fuel st).final_profile.pressure = p ∧
      ∀ r ∈ (solveLoop cfg phys fuel st).history, r.profile.pressure = p := by
  intro fuel
  induction fuel with
  | zero =>
    intro st h1 h2
    exact ⟨h1, h2⟩
  | succ n ih =>
    intro st h1 h2
    have h1' : (iterStep cfg phys st).profile.pressure = p := by
      rw [iterStep_pressure]; exact h1
    have h2' : ∀ r ∈ (iterStep cfg phys st).history, r.profile.pressure = p := by
      intro r hr
      rcases iterStep_mem_history cfg phys st r hr with h | ⟨hp, _⟩
      · exact h2 r h
      · rw [hp]; exact h1'
    rw [solveLoop]
    split
    · exact ⟨h1', h2'⟩
    · split
      · exact ⟨h1', h2'⟩
      · exact ih (iterStep cfg phys st) h1' h2'

theorem solveLoop_zones (cfg : SolverConfig) (phys : Physics) :
    ∀ fuel st, st.zones.length ≤ cfg.nofczns →
      (∀ r ∈ st.history, r.zones.length ≤ cfg.nofczns) →
      (solveLoop cfg phys fuel st).final_zones.length ≤ cfg.nofczns ∧
      ∀ r ∈ (solveLoop cfg phys fuel st).history, r.zones.length ≤ cfg.nofczns := by
  intro fuel
  induction fuel with
  | zero =>
    intro st h1 h2
    exact ⟨h1, h2⟩
  | succ n ih =>
    intro st h1 h2
    have h1' : (iterStep cfg phys st).zones.length ≤ cfg.nofczns :=
      iterStep_zones_le cfg phys st h1
    have h2' : ∀ r ∈ (iterStep cfg phys st).history, r.zones.length ≤ cfg.nofczns := by
      intro r hr
      rcases iterStep_mem_history cfg phys st r hr with h | ⟨_, hz⟩
      · exact h2 r h
      · rw [hz]; exact h1'
    rw [solveLoop]
    split
    · exact ⟨h1', h2'⟩
    · split
      · exact ⟨h1', h2'⟩
      · exact ih (iterStep cfg phys st) h1' h2'

theorem solveLoop_shape (cfg : SolverConfig) (phys : Physics) :
    ∀ fuel st, ∃ k, k ≤ fuel ∧ (1 ≤ fuel → 1 ≤ k) ∧
      (solveLoop cfg phys fuel st).iterations = st.iter + k ∧
      (solveLoop cfg phys fuel st).trace
        = st.trace ++ (List.replicate k SState.iterating
            ++ [terminalOf (solveLoop cfg phys fuel st).outcome]) ∧
      ((solveLoop cfg phys fuel st).outcome = SolveOutcome.converged ∨
        (solveLoop cfg phys fuel st).outcome = SolveOutcome.diverged ∨
        (solveLoop cfg phys fuel st).outcome = SolveOutcome.maxIterExceeded) ∧
      ((solveLoop cfg phys fuel st).outcome = SolveOutcome.maxIterExceeded →
        (solveLoop cfg phys fuel st).converged = false) ∧
      ((solveLoop cfg phys fuel st).outcome = SolveOutcome.converged →
        (solveLoop cfg phys fuel st).converged = true) ∧
      (solveLoop cfg phys fuel st).history.length
        = st.history.length + (if cfg.track_history = true then k else 0) := by
  intro fuel
  induction fuel with
  | zero =>
    intro st
    refine ⟨0, le_refl 0, by omega, rfl, by simp [solveLoop, finishRun], ?_, ?_, ?_, ?_⟩
    · exact Or.inr (Or.inr rfl)
    · intro _; rfl
    · intro h; exact absurd h (by simp [solveLoop, finishRun])
    · simp [solveLoop, finishRun]
  | succ n ih =>
    intro st
    rw [solveLoop]
    split
    · refine ⟨1, by omega, by omega, ?_, ?_, Or.inr (Or.inl rfl), ?_, ?_, ?_⟩
      · show (iterStep cfg phys st).iter = st.iter + 1
        exact iterStep_iter cfg phys st
      · show (iterStep cfg phys st).trace ++ _ = _
        rw [iterStep_trace]
        simp [finishRun]
      · intro h; exact absurd h (by simp [finishRun])
      · intro h; exact absurd h (by simp [finishRun])
      · show (iterStep cfg phys st).history.length = _
        rw [iterStep_history_length]
    · split
      · refine ⟨1, by omega, by omega, ?_, ?_, Or.inl rfl, ?_, ?_, ?_⟩
        · show (iterStep cfg phys st).iter = st.iter + 1
          exact iterStep_iter cfg phys st
        · show (iterStep cfg phys st).trace ++ _ = _
          rw [iterStep_trace]
          simp [finishRun]
        · intro h; exact absurd h (by simp [finishRun])
        · intro _; rfl
        · show (iterStep cfg phys st).history.length = _
          rw [iterStep_history_length]
      · obtain ⟨k, hk, _, hit, htr, hout, hmax, hconv, hhist⟩ := ih (iterStep cfg phys st)
        refine ⟨k + 1, by omega, by omega, ?_, ?_, hout, hmax, hconv, ?_⟩
        · rw [hit, iterStep_iter]
          omega
        · rw [htr, iterStep_trace]
          simp [List.replicate_succ]
        · rw [hhist, iterStep_history_length]
          split <;> omega

theorem chain_replicate_iterating (t : SState) (ht : allowedT SState.iterating t = true) :
    ∀ k, List.Chain' (fun a b => allowedT a b = true)
      (List.replicate k SState.iterating ++ [t]) := by
  intro k
  induction k with
  | zero => simp
  | succ m ih =>
    rw [List.replicate_succ, List.cons_append, List.chain'_cons']
    refine ⟨?_, ih⟩
    intro y hy
    cases m with
    | zero =>
      simp at hy
      subst hy
      exact ht
    | succ l =>
      rw [List.replicate_succ, List.cons_append, List.head?_cons, Option.mem_some_iff] at hy
      rw [← hy]
      rfl

/-! Claim theorems. -/

/-- Claim C4: with `rfacv = 0`, the computed per-level heating rates are
identical whether the irradiation input is nonzero or zero — the
irradiation contribution is fully gated off by `rfacv = 0`, so the output
of `compute_heating` does not depend on the irradiation input
(two-run noninterference over `compute_heating`). -/
theorem C4_rfacv_noninterference (phys : Physics) (prof : Profile)
    (zones : ConvectiveZoneMap) (opac : List (List ℚ)) (F : ℚ) (irr1 irr2 : List ℚ)
    (h : irr1.length = irr2.length) :
    compute_heating phys prof zones opac
        { internal_flux := F, irradiation := irr1, rfacv := 0 }
      = compute_heating phys prof zones opac
        { internal_flux := F, irradiation := irr2, rfacv := 0 } := by
  show List.zipWith (fun r irr => r + 0 * irr) (phys.radiative prof zones opac F) irr1
    = List.zipWith (fun r irr => r + 0 * irr) (phys.radiative prof zones opac F) irr2
  exact zipWith_zero_gate (phys.radiative prof zones opac F) irr1 irr2 h

/-- Witness for C4 at concrete inputs: a nonzero irradiation list against
the zero list of the same length. -/
theorem C4_rfacv_noninterference_witness :
    ([(5 : ℚ), 7]).length = ([(0 : ℚ), 0]).length ∧
    compute_heating tinyPhys tinyProf tinyZones []
        { internal_flux := 1, irradiation := [5, 7], rfacv := 0 }
      = compute_heating tinyPhys tinyProf tinyZones []
        { internal_flux := 1, irradiation := [0, 0], rfacv := 0 } :=
  ⟨rfl, C4_rfacv_noninterference tinyPhys tinyProf tinyZones [] 1 [5, 7] [0, 0] rfl⟩

/-- Claim C8: `solve` is deterministic — two calls with identical
configuration, initial profile, initial zones and identical deterministic
physics stubs yield identical results (same final profile, zone map,
convergence flag and iteration count). -/
theorem C8_deterministic (cfg1 cfg2 : SolverConfig) (phys1 phys2 : Physics)
    (prof1 prof2 : Profile) (zones1 zones2 : ConvectiveZoneMap)
    (hc : cfg1 = cfg2) (hp : phys1 = phys2) (hpr : prof1 = prof2) (hz : zones1 = zones2) :
    (solve cfg1 phys1 prof1 zones1).final_profile
        = (solve cfg2 phys2 prof2 zones2).final_profile ∧
    (solve cfg1 phys1 prof1 zones1).final_zones
        = (solve cfg2 phys2 prof2 zones2).final_zones ∧
    (solve cfg1 phys1 prof1 zones1).converged = (solve cfg2 phys2 prof2 zones2).converged ∧
    (solve cfg1 phys1 prof1 zones1).iterations = (solve cfg2 phys2 prof2 zones2).iterations := by
  subst hc
  subst hp
  subst hpr
  subst hz
  exact ⟨rfl, rfl, rfl, rfl⟩

/-- Witness for C8 at the concrete two-level run. -/
theorem C8_deterministic_witness :
    (tinyCfg = tinyCfg ∧ tinyPhys = tinyPhys ∧ tinyProf = tinyProf ∧ tinyZones = tinyZones) ∧
    ((solve tinyCfg tinyPhys tinyProf tinyZones).final_profile
        = (solve tinyCfg tinyPhys tinyProf tinyZones).final_profile ∧
      (solve tinyCfg tinyPhys tinyProf tinyZones).final_zones
        = (solve tinyCfg tinyPhys tinyProf tinyZones).final_zones ∧
      (solve tinyCfg tinyPhys tinyProf tinyZones).converged
        = (solve tinyCfg tinyPhys tinyProf tinyZones).converged ∧
      (solve tinyCfg tinyPhys tinyProf tinyZones).iterations
        = (solve tinyCfg tinyPhys tinyProf tinyZones).iterations) :=
  ⟨⟨rfl, rfl, rfl, rfl⟩,
    C8_deterministic tinyCfg tinyCfg tinyPhys tinyPhys tinyProf tinyProf tinyZones tinyZones
      rfl rfl rfl rfl⟩

/-- Claim C9: the tutorial's configuration satisfies every stated
precondition of `solve`: with `nlevel = 91` the pressure and temperature
arrays each have exactly 91 entries, `nstr = [0, 83, 89, 0, 0, 0]` encodes
the single range [83, 89] with `nstr_deep = nlevel - 2 = 89` lying within
[0, 91), `nofczns = 1`, and `rfacv = 0` lies in [0, 1]; hence the
configuration passes the solver's validation. -/
theorem C9_tutorial_preconditions :
    tutorialPressure.length = tutorialNlevel ∧
    tutorialTempGuess.length = tutorialNlevel ∧
    tutorialNlevel = 91 ∧
    tutorialNstr = [0, 83, 89, 0, 0, 0] ∧
    tutorialNstrDeep = tutorialNlevel - 2 ∧
    tutorialZones = [(83, 89)] ∧
    (∀ z ∈ tutorialZones, z.1 ≤ z.2 ∧ z.2 < tutorialNlevel) ∧
    tutorialNofczns = 1 ∧
    tutorialZones.length ≤ tutorialNofczns ∧
    (0 ≤ tutorialRfacv ∧ tutorialRfacv ≤ 1) ∧
    validConfig tutorialConfig tutorialProfile tutorialZones = true := by
  refine ⟨?_, ?_, rfl, by decide, rfl, by decide, by decide, rfl, by decide,
    ⟨by decide, by decide⟩, ?_⟩
  · simp [tutorialPressure, logspaceExp, tutorialNlevel]
  · simp [tutorialTempGuess, tutorialNlevel]
  · simp only [validConfig, Bool.and_eq_true]
    refine ⟨⟨⟨⟨⟨⟨⟨⟨?_, ?_⟩, ?_⟩, ?_⟩, ?_⟩, ?_⟩, ?_⟩, ?_⟩, ?_⟩
    · rw [decide_eq_true_eq]
      simp [tutorialProfile, tutorialPressure, logspaceExp, tutorialConfig, tutorialNlevel]
    · rw [decide_eq_true_eq]
      simp [tutorialProfile, tutorialTempGuess, tutorialConfig, tutorialNlevel]
    · rw [List.all_eq_true]
      intro x hx
      simp only [tutorialProfile, tutorialTempGuess, List.mem_replicate] at hx
      rw [hx.2, decide_eq_true_eq]
      norm_num
    · exact logspaceExp_strictInc (-4) log10_500 (by norm_num [log10_500]) tutorialNlevel
    · decide
    · decide
    · decide
    · decide
    · decide

/-- Claim C10: distinct solve invocations are isolated — each call owns its
own state, so the result of each solve in a sequence of runs depends only
on its own inputs and not on whether, or in what order, the other solve
ran (mirroring the tutorial's `cl_run` and `cl_bad_pres` pair). -/
theorem C10_solve_isolation (a a2 b b2 : RunInput) :
    solveSeq [a, b] = [solveOn a, solveOn b] ∧
    (solveSeq [a, b]).get? 0 = (solveSeq [a, b2]).get? 0 ∧
    (solveSeq [a, b]).get? 1 = (solveSeq [a2, b]).get? 1 ∧
    (solveSeq [a, b]).get? 0 = (solveSeq [b, a]).get? 1 :=
  ⟨rfl, rfl, rfl, rfl⟩

/-- Claim C1: at every iteration of every solve (each history record is the
snapshot taken after that iteration's ConvectiveAdjuster step), the
profile's pressures are exactly the initial pressures — never reordered —
and hence remain strictly increasing with level index; and the tutorial's
initial grid `np.logspace(log10(1e-4), log10(500), 91)` is strictly
increasing. -/
theorem C1_pressure_monotonicity (cfg : SolverConfig) (phys : Physics) (prof : Profile)
    (zones : ConvectiveZoneMap) (h : validConfig cfg prof zones = true) :
    ((solve cfg phys prof zones).final_profile.pressure = prof.pressure ∧
      strictIncB (solve cfg phys prof zones).final_profile.pressure = true) ∧
    (∀ r ∈ (solve cfg phys prof zones).history,
      r.profile.pressure = prof.pressure ∧ strictIncB r.profile.pressure = true) ∧
    strictIncB tutorialPressure = true := by
  have hinc : strictIncB prof.pressure = true := by
    simp only [validConfig, Bool.and_eq_true] at h
    exact h.1.1.1.1.1.2
  have hsolve : solve cfg phys prof zones
      = solveLoop cfg phys cfg.max_iterations (initState cfg prof zones) := by
    unfold solve
    rw [if_pos h]
  obtain ⟨hfp, hhist⟩ := solveLoop_pressure cfg phys prof.pressure cfg.max_iterations
    (initState cfg prof zones) rfl (by intro r hr; simp [initState] at hr)
  rw [hsolve]
  refine ⟨⟨hfp, ?_⟩, ?_, ?_⟩
  · rw [hfp]
    exact hinc
  · intro r hr
    refine ⟨hhist r hr, ?_⟩
    rw [hhist r hr]
    exact hinc
  · exact logspaceExp_strictInc (-4) log10_500 (by norm_num [log10_500]) tutorialNlevel

/-- Witness for C1 at the concrete two-level run. -/
theorem C1_pressure_monotonicity_witness :
    validConfig tinyCfg tinyProf tinyZones = true ∧
    (((solve tinyCfg tinyPhys tinyProf tinyZones).final_profile.pressure = tinyProf.pressure ∧
      strictIncB (solve tinyCfg tinyPhys tinyProf tinyZones).final_profile.pressure = true) ∧
    (∀ r ∈ (solve tinyCfg tinyPhys tinyProf tinyZones).history,
      r.profile.pressure = tinyProf.pressure ∧ strictIncB r.profile.pressure = true) ∧
    strictIncB tutorialPressure = true) :=
  ⟨by decide, C1_pressure_monotonicity tinyCfg tinyPhys tinyProf tinyZones (by decide)⟩

/-- Claim C2: at every iteration of every solve the number of convective
zones in the map never exceeds the configured `nofczns` (each history
record and the final map), and the zone-bounding merge itself can never
return more than `nofczns` zones, so the bound is not exceeded even
transiently. -/
theorem C2_zone_count_bound (cfg : SolverConfig) (phys : Physics) (prof : Profile)
    (zones : ConvectiveZoneMap) (h : validConfig cfg prof zones = true) :
    ((∀ r ∈ (solve cfg phys prof zones).history, r.zones.length ≤ cfg.nofczns) ∧
      (solve cfg phys prof zones).final_zones.length ≤ cfg.nofczns) ∧
    ∀ zs : ConvectiveZoneMap, (boundZones cfg.nofczns zs).length ≤ cfg.nofczns := by
  have hzc : zones.length ≤ cfg.nofczns := by
    simp only [validConfig, Bool.and_eq_true, decide_eq_true_eq] at h
    exact h.1.1.2
  have hsolve : solve cfg phys prof zones
      = solveLoop cfg phys cfg.max_iterations (initState cfg prof zones) := by
    unfold solve
    rw [if_pos h]
  obtain ⟨hfz, hhist⟩ := solveLoop_zones cfg phys cfg.max_iterations
    (initState cfg prof zones) hzc (by intro r hr; simp [initState] at hr)
  rw [hsolve]
  exact ⟨⟨hhist, hfz⟩, fun zs => boundZones_le cfg.nofczns zs⟩

/-- Witness for C2 at the concrete two-level run. -/
theorem C2_zone_count_bound_witness :
    validConfig tinyCfg tinyProf tinyZones = true ∧
    (((∀ r ∈ (solve tinyCfg tinyPhys tinyProf tinyZones).history,
        r.zones.length ≤ tinyCfg.nofczns) ∧
      (solve tinyCfg tinyPhys tinyProf tinyZones).final_zones.length ≤ tinyCfg.nofczns) ∧
    ∀ zs : ConvectiveZoneMap, (boundZones tinyCfg.nofczns zs).length ≤ tinyCfg.nofczns) :=
  ⟨by decide, C2_zone_count_bound tinyCfg tinyPhys tinyProf tinyZones (by decide)⟩

/-- Claim C5: for every configuration that is invalid — a non-positive
initial temperature, a non-monotonic pressure grid, `rfacv` outside [0,1],
zone count exceeding `nofczns`, or mismatched profile length — `solve`
reports ConfigurationError before any iteration executes and performs no
partial run: the iteration count is zero and no IterationRecord is
appended. -/
theorem C5_configuration_error (cfg : SolverConfig) (phys : Physics) (prof : Profile)
    (zones : ConvectiveZoneMap)
    (h : (∃ t ∈ prof.temperature, t ≤ 0) ∨
         strictIncB prof.pressure = false ∨
         cfg.rfacv < 0 ∨ 1 < cfg.rfacv ∨
         cfg.nofczns < zones.length ∨
         prof.pressure.length ≠ cfg.nlevel ∨
         prof.temperature.length ≠ cfg.nlevel) :
    (solve cfg phys prof zones).outcome = SolveOutcome.configError ∧
    (solve cfg phys prof zones).iterations = 0 ∧
    (solve cfg phys prof zones).history = [] := by
  have hnc : ¬ (validConfig cfg prof zones = true) := by
    intro hvc
    simp only [validConfig, Bool.and_eq_true, decide_eq_true_eq, List.all_eq_true] at hvc
    obtain ⟨⟨⟨⟨⟨⟨⟨⟨hl1, hl2⟩, hpos⟩, hincr⟩, hr0⟩, hr1⟩, hzc⟩, hzr⟩, hmi⟩ := hvc
    rcases h with ⟨t, ht, hle⟩ | h | h | h | h | h | h
    · have := hpos t ht
      linarith
    · rw [h] at hincr
      exact Bool.false_ne_true hincr
    · linarith
    · linarith
    · omega
    · exact h hl1
    · exact h hl2
  unfold solve
  rw [if_neg hnc]
  exact ⟨rfl, rfl, rfl⟩

/-- Witness for C5 at a concrete configuration whose temperature guess
contains a non-positive value. -/
theorem C5_configuration_error_witness :
    ((∃ t ∈ badTempProf.temperature, t ≤ 0) ∨
       strictIncB badTempProf.pressure = false ∨
       tinyCfg.rfacv < 0 ∨ 1 < tinyCfg.rfacv ∨
       tinyCfg.nofczns < tinyZones.length ∨
       badTempProf.pressure.length ≠ tinyCfg.nlevel ∨
       badTempProf.temperature.length ≠ tinyCfg.nlevel) ∧
    ((solve tinyCfg tinyPhys badTempProf tinyZones).outcome = SolveOutcome.configError ∧
     (solve tinyCfg tinyPhys badTempProf tinyZones).iterations = 0 ∧
     (solve tinyCfg tinyPhys badTempProf tinyZones).history = []) :=
  ⟨by decide, C5_configuration_error tinyCfg tinyPhys badTempProf tinyZones (by decide)⟩

/-- Claim C6: for every valid configuration (`max_iterations > 0` is part
of validity) `solve` terminates with at most `max_iterations` iterations,
and when tolerance was not met in that budget the run ends in the
MAX_ITER_EXCEEDED outcome with the best-known profile flagged
not-converged; the only other outcomes are CONVERGED and DIVERGED (the
solver is a total Lean function of its inputs by construction). -/
theorem C6_termination (cfg : SolverConfig) (phys : Physics) (prof : Profile)
    (zones : ConvectiveZoneMap) (h : validConfig cfg prof zones = true) :
    (solve cfg phys prof zones).iterations ≤ cfg.max_iterations ∧
    ((solve cfg phys prof zones).outcome = SolveOutcome.maxIterExceeded →
      (solve cfg phys prof zones).converged = false) ∧
    ((solve cfg phys prof zones).outcome = SolveOutcome.converged ∨
      (solve cfg phys prof zones).outcome = SolveOutcome.diverged ∨
      (solve cfg phys prof zones).outcome = SolveOutcome.maxIterExceeded) := by
  have hsolve : solve cfg phys prof zones
      = solveLoop cfg phys cfg.max_iterations (initState cfg prof zones) := by
    unfold solve
    rw [if_pos h]
  obtain ⟨k, hk, _, hit, _, hout, hmax, _, _⟩ :=
    solveLoop_shape cfg phys cfg.max_iterations (initState cfg prof zones)
  rw [hsolve]
  refine ⟨?_, hmax, hout⟩
  rw [hit]
  show (initState cfg prof zones).iter + k ≤ cfg.max_iterations
  simpa [initState] using hk

/-- Witness for C6 at the concrete two-level run. -/
theorem C6_termination_witness :
    validConfig tinyCfg tinyProf tinyZones = true ∧
    ((solve tinyCfg tinyPhys tinyProf tinyZones).iterations ≤ tinyCfg.max_iterations ∧
    ((solve tinyCfg tinyPhys tinyProf tinyZones).outcome = SolveOutcome.maxIterExceeded →
      (solve tinyCfg tinyPhys tinyProf tinyZones).converged = false) ∧
    ((solve tinyCfg tinyPhys tinyProf tinyZones).outcome = SolveOutcome.converged ∨
      (solve tinyCfg tinyPhys tinyProf tinyZones).outcome = SolveOutcome.diverged ∨
      (solve tinyCfg tinyPhys tinyProf tinyZones).outcome = SolveOutcome.maxIterExceeded)) :=
  ⟨by decide, C6_termination tinyCfg tinyPhys tinyProf tinyZones (by decide)⟩

/-- Claim C7: every solve on a valid configuration follows the state
machine INITIALIZED -> ITERATING -> {CONVERGED, DIVERGED,
MAX_ITER_EXCEEDED}: the visited-state trace starts at the fresh
INITIALIZED state, every consecutive pair is an allowed transition,
ITERATING is the only state with a self-loop, every terminal state is
final (no allowed transition leaves it), the run ends in one of the three
terminal states, and each ITERATING self-transition emits exactly one
IterationRecord when history tracking is enabled. -/
theorem C7_state_machine (cfg : SolverConfig) (phys : Physics) (prof : Profile)
    (zones : ConvectiveZoneMap) (h : validConfig cfg prof zones = true) :
    (solve cfg phys prof zones).trace
        = SState.initial ::
            (List.replicate ((solve cfg phys prof zones).iterations + 1) SState.iterating
              ++ [terminalOf (solve cfg phys prof zones).outcome]) ∧
    List.Chain' (fun a b => allowedT a b = true) (solve cfg phys prof zones).trace ∧
    (solve cfg phys prof zones).trace.head? = some SState.initial ∧
    isTerminal (terminalOf (solve cfg phys prof zones).outcome) = true ∧
    (cfg.track_history = true →
      (solve cfg phys prof zones).history.length = (solve cfg phys prof zones).iterations) ∧
    (∀ s : SState, allowedT s s = true → s = SState.iterating) ∧
    (∀ t s : SState, isTerminal t = true → allowedT t s = false) := by
  have hsolve : solve cfg phys prof zones
      = solveLoop cfg phys cfg.max_iterations (initState cfg prof zones) := by
    unfold solve
    rw [if_pos h]
  obtain ⟨k, hk, h1k, hit, htr, hout, hmax, hconv, hhist⟩ :=
    solveLoop_shape cfg phys cfg.max_iterations (initState cfg prof zones)
  have hiter0 : (solveLoop cfg phys cfg.max_iterations (initState cfg prof zones)).iterations
      = k := by
    rw [hit]
    show 0 + k = k
    omega
  have htrace : (solveLoop cfg phys cfg.max_iterations (initState cfg prof zones)).trace
      = SState.initial ::
          (List.replicate (k + 1) SState.iterating
            ++ [terminalOf
                  (solveLoop cfg phys cfg.max_iterations (initState cfg prof zones)).outcome]) := by
    rw [htr]
    show ([SState.initial, SState.iterating] : List SState) ++ _ = _
    rw [List.replicate_succ]
    simp
  have hterm : isTerminal
      (terminalOf (solveLoop cfg phys cfg.max_iterations (initState cfg prof zones)).outcome)
        = true := by
    rcases hout with ho | ho | ho <;> rw [ho] <;> rfl
  have hallow : allowedT SState.iterating
      (terminalOf (solveLoop cfg phys cfg.max_iterations (initState cfg prof zones)).outcome)
        = true := by
    rcases hout with ho | ho | ho <;> rw [ho] <;> rfl
  rw [hsolve]
  refine ⟨?_, ?_, ?_, hterm, ?_, ?_, ?_⟩
  · rw [htrace, hiter0]
  · rw [htrace]
    rw [List.chain'_cons']
    refine ⟨?_, chain_replicate_iterating _ hallow (k + 1)⟩
    intro y hy
    rw [List.replicate_succ, List.cons_append, List.head?_cons, Option.mem_some_iff] at hy
    rw [← hy]
    rfl
  · rw [htrace]
    rfl
  · intro htk
    rw [hhist, hiter0, htk]
    show 0 + k = k
    simp
  · intro s hs
    cases s
    · exact absurd hs (by decide)
    · rfl
    · exact absurd hs (by decide)
    · exact absurd hs (by decide)
    · exact absurd hs (by decide)
  · intro t s ht
    cases t <;> cases s <;> first | rfl | exact absurd ht (by decide)

/-- Witness for C7 at the concrete two-level run. -/
theorem C7_state_machine_witness :
    validConfig tinyCfg tinyProf tinyZones = true ∧
    ((solve tinyCfg tinyPhys tinyProf tinyZones).trace
        = SState.initial ::
            (List.replicate ((solve tinyCfg tinyPhys tinyProf tinyZones).iterations + 1)
                SState.iterating
              ++ [terminalOf (solve tinyCfg tinyPhys tinyProf tinyZones).outcome]) ∧
    List.Chain' (fun a b => allowedT a b = true)
      (solve tinyCfg tinyPhys tinyProf tinyZones).trace ∧
    (solve tinyCfg tinyPhys tinyProf tinyZones).trace.head? = some SState.initial ∧
    isTerminal (terminalOf (solve tinyCfg tinyPhys tinyProf tinyZones).outcome) = true ∧
    (tinyCfg.track_history = true →
      (solve tinyCfg tinyPhys tinyProf tinyZones).history.length
        = (solve tinyCfg tinyPhys tinyProf tinyZones).iterations) ∧
    (∀ s : SState, allowedT s s = true → s = SState.iterating) ∧
    (∀ t s : SState, isTerminal t = true → allowedT t s = false)) :=
  ⟨by decide, C7_state_machine tinyCfg tinyPhys tinyProf tinyZones (by decide)⟩
